import Mathlib

/-!
Verification of the view-state controller of the camera/GPS/analysis app
(`src/App.tsx`, data model in `src/types.ts`).

The controller is a React component holding eight `useState` fields.  We
embed it as a pure state record `AppState` together with one Lean function
per event handler.  Asynchronous completions (the geolocation callbacks and
the resolution of the analysis promise) are modelled as separate transition
functions, invoked as events of an event-level transition system `step`
whose guards record which actions the rendered UI actually offers in each
view, and whose `World` wrapper counts in-flight asynchronous requests so
that a completion event can only fire when a matching request is pending.
-/

/-- The four screens, from `useState<'home' | 'camera' | 'preview' | 'analysis'>`. -/
inductive View where
  | home
  | camera
  | preview
  | analysis
deriving DecidableEq, Repr

/-- Structure `Coordinates` from `src/types.ts`.  The controller never computes with
the numeric values (they are only displayed), so the carrier of the float
fields is irrelevant to every claim; we use `Int` scaled degrees. -/
structure Coordinates where
  latitude : Int
  longitude : Int
  accuracy : Option Int
deriving DecidableEq, Repr

/-- The controller's state: the eight `useState` fields of `App` in
`src/App.tsx` lines 18-25 (`null` becomes `none`). -/
structure AppState where
  view : View
  imageSrc : Option String
  location : Option Coordinates
  locationError : Option String
  isLoadingLocation : Bool
  analysisResult : Option String
  isAnalyzing : Bool
  error : Option String
deriving DecidableEq, Repr

/-- The initial state: `view = 'home'`, all optional fields `null`,
both flags `false`. -/
def initialState : AppState :=
  { view := View.home
    imageSrc := none
    location := none
    locationError := none
    isLoadingLocation := false
    analysisResult := none
    isAnalyzing := false
    error := none }

/-- The branch of `handleGetLocation` taken when `navigator.geolocation`
is falsy (lines 29-32): set the location error and return; the general
`error` field is not touched. -/
def handleGetLocationUnsupported (s : AppState) : AppState :=
  { s with locationError := some "Geolocation is not supported by your device." }

/-- The synchronous part of `handleGetLocation` when geolocation exists
(lines 34-36): set the loading flag, clear both error fields, then issue
the asynchronous request. -/
def handleGetLocationStart (s : AppState) : AppState :=
  { s with isLoadingLocation := true, locationError := none, error := none }

/-- The geolocation success callback (lines 39-46): store the coordinates
and clear the loading flag. -/
def handleGetLocationSuccess (c : Coordinates) (s : AppState) : AppState :=
  { s with location := some c, isLoadingLocation := false }

/-- The error-code-to-message mapping of the geolocation error callback
(lines 49-52). -/
def geoErrorMessage (code : Nat) : String :=
  if code = 1 then "Location permission denied."
  else if code = 2 then "Position unavailable."
  else if code = 3 then "Location request timed out."
  else "Unable to retrieve location."

/-- The geolocation error callback (lines 47-57): store the mapped message
as both the location error and the general error, and clear the loading
flag. -/
def handleGetLocationFailure (code : Nat) (s : AppState) : AppState :=
  let msg := geoErrorMessage code
  { s with locationError := some msg, error := some msg, isLoadingLocation := false }

/-- Handler `handleOpenCamera` (lines 63-66). -/
def handleOpenCamera (s : AppState) : AppState :=
  { s with error := none, view := View.camera }

/-- Handler `handleCapture` (lines 68-71). -/
def handleCapture (src : String) (s : AppState) : AppState :=
  { s with imageSrc := some src, view := View.preview }

/-- Handler `handleCameraError` (lines 73-76): only the general error is set; the
view is unchanged. -/
def handleCameraError (err : String) (s : AppState) : AppState :=
  { s with error := some err }

/-- Handler `handleRetake` (lines 79-82). -/
def handleRetake (s : AppState) : AppState :=
  { s with imageSrc := none, view := View.camera }

/-- The synchronous part of `handleUsePhoto` (lines 84-90).  Returns the
new state together with the argument pair of the `analyzeImageWithLocation`
call it issues, or `none` when the early `if (!imageSrc) return` fires and
no call is made. -/
def handleUsePhotoStart (s : AppState) : AppState × Option (String × Option Coordinates) :=
  match s.imageSrc with
  | none => (s, none)
  | some img =>
      ({ s with isAnalyzing := true, error := none, view := View.analysis },
       some (img, s.location))

/-- Resolution of a successful `analyzeImageWithLocation` call
(lines 92-93 plus the `finally` of line 96-98): store the result text and
clear the in-progress flag. -/
def handleUsePhotoSuccess (result : String) (s : AppState) : AppState :=
  { s with analysisResult := some result, isAnalyzing := false }

/-- JavaScript `err.message || "Analysis failed."` (line 95): an absent
message is `none`, and the empty string is falsy, so both select the
fallback. -/
def analysisErrorMessage (m : Option String) : String :=
  match m with
  | none => "Analysis failed."
  | some msg => if msg = "" then "Analysis failed." else msg

/-- Resolution of a failing `analyzeImageWithLocation` call (the `catch`
of lines 94-95 plus the `finally`): store the message (with the JS falsy
fallback) as the general error and clear the in-progress flag; the result
field is not touched. -/
def handleUsePhotoFailure (m : Option String) (s : AppState) : AppState :=
  { s with error := some (analysisErrorMessage m), isAnalyzing := false }

/-- Handler `handleBackToHome` (lines 101-107): go home, clear the general error,
the image and the analysis result; location, location error and both flags
are untouched. -/
def handleBackToHome (s : AppState) : AppState :=
  { s with view := View.home, error := none, imageSrc := none, analysisResult := none }

/-- The back button of the shared `Header` (line 116):
`view === 'preview' ? handleRetake() : handleBackToHome()`. -/
def headerBack (s : AppState) : AppState :=
  if s.view = View.preview then handleRetake s else handleBackToHome s

/-- The observable events of the controller: one per user action the
rendered UI offers, plus the asynchronous completions. -/
inductive Event where
  | getLocationUnsupported
  | getLocationStart
  | getLocationSuccess (c : Coordinates)
  | getLocationFailure (code : Nat)
  | openCamera
  | capture (src : String)
  | cameraError (msg : String)
  | retake
  | usePhotoStart
  | analysisSuccess (result : String)
  | analysisFailure (msg : Option String)
  | backToHome
  | headerBackEvent
deriving DecidableEq, Repr

/-- The app state paired with the number of in-flight asynchronous
requests of each kind, so completion events fire only when a matching
request is pending. -/
structure World where
  app : AppState
  pendingLocation : Nat
  pendingAnalysis : Nat
deriving DecidableEq, Repr

/-- The initial world: `initialState`, nothing pending. -/
def initialWorld : World :=
  { app := initialState, pendingLocation := 0, pendingAnalysis := 0 }

/-- One event-level transition.  Guards record where each trigger exists
in the rendered tree of `App` (lines 150-313): the location and camera
buttons are on the home screen; capture and camera error come from the
`Camera` component mounted on the camera screen; Retake and Use Photo are
rendered only when `view === 'preview' && imageSrc`; `handleBackToHome` is
wired to the camera screen's back button (line 227) and the analysis
screen's Done button (line 304); the `Header` back button is shown on the
preview and analysis screens.  A disabled event leaves the world
unchanged. -/
def step (w : World) (e : Event) : World :=
  match e with
  | Event.getLocationUnsupported =>
      if w.app.view = View.home then { w with app := handleGetLocationUnsupported w.app } else w
  | Event.getLocationStart =>
      if w.app.view = View.home then
        { w with app := handleGetLocationStart w.app,
                 pendingLocation := w.pendingLocation + 1 }
      else w
  | Event.getLocationSuccess c =>
      if 0 < w.pendingLocation then
        { w with app := handleGetLocationSuccess c w.app,
                 pendingLocation := w.pendingLocation - 1 }
      else w
  | Event.getLocationFailure code =>
      if 0 < w.pendingLocation then
        { w with app := handleGetLocationFailure code w.app,
                 pendingLocation := w.pendingLocation - 1 }
      else w
  | Event.openCamera =>
      if w.app.view = View.home then { w with app := handleOpenCamera w.app } else w
  | Event.capture src =>
      if w.app.view = View.camera then { w with app := handleCapture src w.app } else w
  | Event.cameraError msg =>
      if w.app.view = View.camera then { w with app := handleCameraError msg w.app } else w
  | Event.retake =>
      if w.app.view = View.preview ∧ w.app.imageSrc ≠ none then
        { w with app := handleRetake w.app }
      else w
  | Event.usePhotoStart =>
      if w.app.view = View.preview ∧ w.app.imageSrc ≠ none then
        let r := handleUsePhotoStart w.app
        { w with app := r.1,
                 pendingAnalysis := w.pendingAnalysis + (if r.2.isSome then 1 else 0) }
      else w
  | Event.analysisSuccess result =>
      if 0 < w.pendingAnalysis then
        { w with app := handleUsePhotoSuccess result w.app,
                 pendingAnalysis := w.pendingAnalysis - 1 }
      else w
  | Event.analysisFailure msg =>
      if 0 < w.pendingAnalysis then
        { w with app := handleUsePhotoFailure msg w.app,
                 pendingAnalysis := w.pendingAnalysis - 1 }
      else w
  | Event.backToHome =>
      if w.app.view = View.camera ∨ w.app.view = View.analysis then
        { w with app := handleBackToHome w.app }
      else w
  | Event.headerBackEvent =>
      if (w.app.view = View.preview ∧ w.app.imageSrc ≠ none) ∨ w.app.view = View.analysis then
        { w with app := headerBack w.app }
      else w

/-- Run a sequence of events from a world. -/
def run (w : World) : List Event → World
  | [] => w
  | e :: es => run (step w e) es

/-! ## Claim C1: geolocation failure messages -/

/-- C1: for every geolocation failure, the mapped message is stored in both
the location error and the general error fields; codes 1, 2, 3 give exactly
the permission-denied, position-unavailable and timed-out messages, and any
other code gives the generic fallback. -/
theorem C1_geo_failure_messages (s : AppState) (code : Nat) :
    (handleGetLocationFailure code s).locationError
      = (handleGetLocationFailure code s).error ∧
    (code = 1 →
      (handleGetLocationFailure code s).error = some "Location permission denied.") ∧
    (code = 2 →
      (handleGetLocationFailure code s).error = some "Position unavailable.") ∧
    (code = 3 →
      (handleGetLocationFailure code s).error = some "Location request timed out.") ∧
    (code ≠ 1 → code ≠ 2 → code ≠ 3 →
      (handleGetLocationFailure code s).error = some "Unable to retrieve location.") := by
  refine ⟨rfl, ?_, ?_, ?_, ?_⟩
  · intro h; simp [handleGetLocationFailure, geoErrorMessage, h]
  · intro h; simp [handleGetLocationFailure, geoErrorMessage, h]
  · intro h; simp [handleGetLocationFailure, geoErrorMessage, h]
  · intro h1 h2 h3; simp [handleGetLocationFailure, geoErrorMessage, h1, h2, h3]

/-- Witness for C1 at codes 1 and 7 on the initial state. -/
theorem C1_geo_failure_messages_witness :
    (handleGetLocationFailure 1 initialState).error = some "Location permission denied." ∧
    (handleGetLocationFailure 7 initialState).error = some "Unable to retrieve location." :=
  ⟨(C1_geo_failure_messages initialState 1).2.1 rfl,
   (C1_geo_failure_messages initialState 7).2.2.2.2
     (by decide) (by decide) (by decide)⟩

/-! ## Claim C2: UsePhoto with no image is a no-op -/

/-- C2: when the image reference is absent, `handleUsePhoto` returns the
state unchanged in every field and issues no call to the analysis
client. -/
theorem C2_use_photo_noop (s : AppState) (h : s.imageSrc = none) :
    handleUsePhotoStart s = (s, none) := by
  simp [handleUsePhotoStart, h]

/-- Witness for C2 on the initial state, which has no image. -/
theorem C2_use_photo_noop_witness :
    handleUsePhotoStart initialState = (initialState, none) :=
  C2_use_photo_noop initialState rfl

/-! ## Claim C3: BackToHome clears image, result and error, keeps location -/

/-- C3: after `handleBackToHome` the view is home, the image reference,
analysis result and general error are absent, and the location and
location error are exactly their values before the call. -/
theorem C3_back_to_home (s : AppState) :
    (handleBackToHome s).view = View.home ∧
    (handleBackToHome s).imageSrc = none ∧
    (handleBackToHome s).analysisResult = none ∧
    (handleBackToHome s).error = none ∧
    (handleBackToHome s).location = s.location ∧
    (handleBackToHome s).locationError = s.locationError :=
  ⟨rfl, rfl, rfl, rfl, rfl, rfl⟩

/-! ## Claim C4: failing analysis call -/

/-- C4 counterexample: a failure whose message is present but empty.  The
claim says the stored general error is the failure's message (fallback only
when the message is absent), but line 95 uses JavaScript `||`, for which
the empty string is falsy: the code stores the fallback, not the empty
message. -/
theorem C4_counterexample :
    (handleUsePhotoFailure (some "")
        { initialState with imageSrc := some "img1", view := View.analysis,
                            isAnalyzing := true }).error
      = some "Analysis failed." ∧
    some "Analysis failed." ≠ (some "" : Option String) := by
  exact ⟨rfl, by decide⟩

/-- C4 as amended: a UsePhoto invocation with an image present whose
analysis call fails takes the in-progress flag from true back to false,
leaves the analysis result absent, and stores a non-absent general error:
the failure's message when it is present and non-empty, and the generic
fallback when the message is absent or empty. -/
theorem C4_use_photo_failure (s : AppState) (m : Option String) (img : String)
    (himg : s.imageSrc = some img) (hres : s.analysisResult = none) :
    (handleUsePhotoStart s).1.isAnalyzing = true ∧
    (handleUsePhotoFailure m (handleUsePhotoStart s).1).isAnalyzing = false ∧
    (handleUsePhotoFailure m (handleUsePhotoStart s).1).analysisResult = none ∧
    (handleUsePhotoFailure m (handleUsePhotoStart s).1).error ≠ none ∧
    (∀ msg, m = some msg → msg ≠ "" →
      (handleUsePhotoFailure m (handleUsePhotoStart s).1).error = some msg) ∧
    ((m = none ∨ m = some "") →
      (handleUsePhotoFailure m (handleUsePhotoStart s).1).error
        = some "Analysis failed.") := by
  refine ⟨?_, ?_, ?_, ?_, ?_, ?_⟩
  · simp [handleUsePhotoStart, himg]
  · simp [handleUsePhotoFailure]
  · simp [handleUsePhotoFailure, handleUsePhotoStart, himg, hres]
  · simp [handleUsePhotoFailure]
  · intro msg hm hne
    simp [handleUsePhotoFailure, analysisErrorMessage, hm, hne]
  · rintro (hm | hm) <;> simp [handleUsePhotoFailure, analysisErrorMessage, hm]

/-- Witness for C4 on a state holding an image, with failure message
"Network error". -/
theorem C4_use_photo_failure_witness :
    (handleUsePhotoFailure (some "Network error")
        (handleUsePhotoStart { initialState with imageSrc := some "img1" }).1).error
      = some "Network error" :=
  ((C4_use_photo_failure { initialState with imageSrc := some "img1" }
      (some "Network error") "img1" rfl rfl).2.2.2.2.1) "Network error" rfl (by decide)

/-! ## Claim C5: successful analysis call -/

/-- C5: a UsePhoto invocation with an image present whose analysis call
succeeds with result text takes the in-progress flag from true back to
false and sets the analysis result to the returned text, a non-absent
value. -/
theorem C5_use_photo_success (s : AppState) (r img : String)
    (himg : s.imageSrc = some img) :
    (handleUsePhotoStart s).1.isAnalyzing = true ∧
    (handleUsePhotoSuccess r (handleUsePhotoStart s).1).isAnalyzing = false ∧
    (handleUsePhotoSuccess r (handleUsePhotoStart s).1).analysisResult = some r ∧
    (handleUsePhotoSuccess r (handleUsePhotoStart s).1).analysisResult ≠ none := by
  refine ⟨?_, ?_, ?_, ?_⟩
  · simp [handleUsePhotoStart, himg]
  · simp [handleUsePhotoSuccess]
  · simp [handleUsePhotoSuccess]
  · simp [handleUsePhotoSuccess]

/-- Witness for C5: the scenario of the spec, result "A red bicycle.". -/
theorem C5_use_photo_success_witness :
    (handleUsePhotoSuccess "A red bicycle."
        (handleUsePhotoStart { initialState with imageSrc := some "img1" }).1).analysisResult
      = some "A red bicycle." :=
  (C5_use_photo_success { initialState with imageSrc := some "img1" }
      "A red bicycle." "img1" rfl).2.2.1

/-! ## Claim C7: all collaborator failures surface in the general error -/

/-- C7 counterexample: the capability-unsupported branch (lines 29-32)
calls only `setLocationError` and returns; the general error field is not
set.  From the initial state it stays `none` while the location error
carries the message, contradicting the claim that every handled failure,
including this one, stores its message in the general error field. -/
theorem C7_counterexample :
    (handleGetLocationUnsupported initialState).locationError
      = some "Geolocation is not supported by your device." ∧
    (handleGetLocationUnsupported initialState).error = none :=
  ⟨rfl, rfl⟩

/-- C7 as amended: every collaborator failure handled by the controller
except the capability-unsupported case stores the failure's message in the
general error field, location failures additionally in the dedicated
location error field; the capability-unsupported case stores its message
only in the location error field and leaves the general error unchanged. -/
theorem C7_failures_surface (s : AppState) (code : Nat) (cm : String) (m : Option String) :
    (handleGetLocationFailure code s).error = some (geoErrorMessage code) ∧
    (handleGetLocationFailure code s).locationError = some (geoErrorMessage code) ∧
    (handleCameraError cm s).error = some cm ∧
    (handleUsePhotoFailure m s).error = some (analysisErrorMessage m) ∧
    (handleGetLocationUnsupported s).locationError
      = some "Geolocation is not supported by your device." ∧
    (handleGetLocationUnsupported s).error = s.error :=
  ⟨rfl, rfl, rfl, rfl, rfl, rfl⟩

/-! ## Claim C9: Retake, and back-from-preview is Retake -/

/-- C9: after `handleRetake` the image reference is absent and the view is
camera; and the header back button pressed while the view is preview
invokes exactly `handleRetake`, so back-from-preview also lands on the
camera view with the image absent, not on home. -/
theorem C9_retake_and_back (s : AppState) :
    (handleRetake s).imageSrc = none ∧
    (handleRetake s).view = View.camera ∧
    (s.view = View.preview →
      headerBack s = handleRetake s ∧
      (headerBack s).view = View.camera ∧
      (headerBack s).imageSrc = none ∧
      (headerBack s).view ≠ View.home) := by
  refine ⟨rfl, rfl, ?_⟩
  intro hv
  have hb : headerBack s = handleRetake s := by simp [headerBack, hv]
  refine ⟨hb, ?_, ?_, ?_⟩ <;> rw [hb] <;> simp [handleRetake]

/-- Witness for C9 on a preview state holding an image. -/
theorem C9_retake_and_back_witness :
    headerBack { initialState with view := View.preview, imageSrc := some "img1" }
      = handleRetake { initialState with view := View.preview, imageSrc := some "img1" } :=
  ((C9_retake_and_back
      { initialState with view := View.preview, imageSrc := some "img1" }).2.2 rfl).1

/-! ## Claim C10: BackToHome does not touch the in-progress flag -/

/-- An analysis started from preview and abandoned via the Done action
while still in flight. -/
def doneDuringAnalysis : List Event :=
  [Event.openCamera, Event.capture "img1", Event.usePhotoStart, Event.backToHome]

/-- C10: `handleBackToHome` leaves the in-progress flag of every state
unchanged; concretely, pressing Done while an analysis is in flight lands
on the home view with the flag still true and the call still pending, and
the later resolution still mutates state: success stores the result and
clears the flag, failure stores the general error and clears the flag. -/
theorem C10_back_keeps_in_progress :
    (∀ s : AppState, (handleBackToHome s).isAnalyzing = s.isAnalyzing) ∧
    (run initialWorld doneDuringAnalysis).app.view = View.home ∧
    (run initialWorld doneDuringAnalysis).app.isAnalyzing = true ∧
    0 < (run initialWorld doneDuringAnalysis).pendingAnalysis ∧
    (step (run initialWorld doneDuringAnalysis)
        (Event.analysisSuccess "A red bicycle.")).app.analysisResult
      = some "A red bicycle." ∧
    (step (run initialWorld doneDuringAnalysis)
        (Event.analysisSuccess "A red bicycle.")).app.isAnalyzing = false ∧
    (step (run initialWorld doneDuringAnalysis)
        (Event.analysisFailure (some "boom"))).app.error = some "boom" ∧
    (step (run initialWorld doneDuringAnalysis)
        (Event.analysisFailure (some "boom"))).app.isAnalyzing = false :=
  ⟨fun _ => rfl, rfl, rfl, by decide, rfl, rfl, rfl, rfl⟩

/-! ## Claim C8: the preview view always holds an image -/

/-- Invariant for C8: whenever the view is preview, the image reference is
present. -/
def previewHasImage (w : World) : Prop :=
  w.app.view = View.preview → w.app.imageSrc ≠ none

lemma previewHasImage_step (w : World) (e : Event) (h : previewHasImage w) :
    previewHasImage (step w e) := by
  unfold previewHasImage at h ⊢
  cases e with
  | getLocationUnsupported => simp only [step]; split_ifs <;> exact h
  | getLocationStart => simp only [step]; split_ifs <;> exact h
  | getLocationSuccess c => simp only [step]; split_ifs <;> exact h
  | getLocationFailure code => simp only [step]; split_ifs <;> exact h
  | openCamera =>
      simp only [step]; split_ifs
      · simp [handleOpenCamera]
      · exact h
  | capture src =>
      simp only [step]; split_ifs
      · simp [handleCapture]
      · exact h
  | cameraError msg => simp only [step]; split_ifs <;> exact h
  | retake =>
      simp only [step]; split_ifs
      · simp [handleRetake]
      · exact h
  | usePhotoStart =>
      simp only [step]
      rcases hmi : w.app.imageSrc with _ | img <;>
        simp only [handleUsePhotoStart, hmi] <;> split_ifs <;>
          first
            | exact h
            | simp
  | analysisSuccess result => simp only [step]; split_ifs <;> exact h
  | analysisFailure msg => simp only [step]; split_ifs <;> exact h
  | backToHome =>
      simp only [step]; split_ifs
      · simp [handleBackToHome]
      · exact h
  | headerBackEvent =>
      simp only [step, headerBack]; split_ifs
      · simp [handleRetake]
      · simp [handleBackToHome]
      · exact h

lemma previewHasImage_run (es : List Event) :
    ∀ w : World, previewHasImage w → previewHasImage (run w es) := by
  induction es with
  | nil => exact fun w h => h
  | cons e es ih => exact fun w h => ih (step w e) (previewHasImage_step w e h)

/-- C8: in every state reachable from the initial state by controller
events, if the view is preview then the image reference is present. -/
theorem C8_preview_implies_image (es : List Event)
    (h : (run initialWorld es).app.view = View.preview) :
    (run initialWorld es).app.imageSrc ≠ none := by
  have h0 : previewHasImage initialWorld := by
    unfold previewHasImage
    intro hv
    exact absurd hv (by decide)
  exact previewHasImage_run es initialWorld h0 h

/-- Witness for C8: the state after opening the camera and capturing. -/
theorem C8_preview_implies_image_witness :
    (run initialWorld [Event.openCamera, Event.capture "img1"]).app.imageSrc ≠ none :=
  C8_preview_implies_image [Event.openCamera, Event.capture "img1"] rfl

/-! ## Claim C6: in-progress implies no result -/

/-- A trace in which an analysis is abandoned via Done while in flight and
its resolution arrives only after the user is already retaking a second
photo: the stale result survives into the second UsePhoto. -/
def staleResolutionTrace : List Event :=
  [Event.openCamera, Event.capture "img1", Event.usePhotoStart, Event.backToHome,
   Event.analysisSuccess "A red bicycle.", Event.openCamera, Event.capture "img2",
   Event.usePhotoStart]

/-- C6 counterexample: a reachable state (every event of
`staleResolutionTrace` is enabled where it fires) in which the in-progress
flag is true while the analysis result is present.  `handleUsePhoto` does
not clear `analysisResult` when it starts (lines 84-90), and a stale
resolution landing after `handleBackToHome` re-populates the result on the
home view, so a second UsePhoto runs with the old result still stored. -/
theorem C6_counterexample :
    (run initialWorld staleResolutionTrace).app.isAnalyzing = true ∧
    (run initialWorld staleResolutionTrace).app.analysisResult
      = some "A red bicycle." :=
  ⟨rfl, rfl⟩

/-- Whether an event is allowed under the prompt-resolution discipline: an
analysis resolution may only be delivered while the analysis view is
current (no stale resolution after Done). -/
def resolutionInView (w : World) : Event → Bool
  | Event.analysisSuccess _ => decide (w.app.view = View.analysis)
  | Event.analysisFailure _ => decide (w.app.view = View.analysis)
  | _ => true

/-- A trace all of whose analysis resolutions are delivered while the
analysis view is current. -/
def promptTrace : World → List Event → Bool
  | _, [] => true
  | w, e :: es => resolutionInView w e && promptTrace (step w e) es

/-- Inductive invariant for C6: the in-progress flag implies an absent
result, and away from the analysis view the result is absent. -/
def analyzingNoResult (w : World) : Prop :=
  (w.app.isAnalyzing = true → w.app.analysisResult = none) ∧
  (w.app.view ≠ View.analysis → w.app.analysisResult = none)

lemma step_usePhotoStart_none (w : World) (hmi : w.app.imageSrc = none) :
    step w Event.usePhotoStart = w := by
  simp [step, hmi]

lemma step_usePhotoStart_notPreview (w : World) (hv : w.app.view ≠ View.preview) :
    step w Event.usePhotoStart = w := by
  simp [step, hv]

lemma step_usePhotoStart_some (w : World) (img : String)
    (hmi : w.app.imageSrc = some img) (hv : w.app.view = View.preview) :
    step w Event.usePhotoStart =
      { w with
          app := { w.app with isAnalyzing := true, error := none, view := View.analysis },
          pendingAnalysis := w.pendingAnalysis + 1 } := by
  simp [step, handleUsePhotoStart, hmi, hv]

lemma analyzingNoResult_step (w : World) (e : Event)
    (h : analyzingNoResult w) (hr : resolutionInView w e = true) :
    analyzingNoResult (step w e) := by
  obtain ⟨h1, h2⟩ := h
  unfold analyzingNoResult
  cases e with
  | getLocationUnsupported => simp only [step]; split_ifs <;> exact ⟨h1, h2⟩
  | getLocationStart => simp only [step]; split_ifs <;> exact ⟨h1, h2⟩
  | getLocationSuccess c => simp only [step]; split_ifs <;> exact ⟨h1, h2⟩
  | getLocationFailure code => simp only [step]; split_ifs <;> exact ⟨h1, h2⟩
  | openCamera =>
      simp only [step]; split_ifs with hg
      · have hres : w.app.analysisResult = none := h2 (by rw [hg]; decide)
        exact ⟨fun _ => hres, fun _ => hres⟩
      · exact ⟨h1, h2⟩
  | capture src =>
      simp only [step]; split_ifs with hg
      · have hres : w.app.analysisResult = none := h2 (by rw [hg]; decide)
        exact ⟨fun _ => hres, fun _ => hres⟩
      · exact ⟨h1, h2⟩
  | cameraError msg => simp only [step]; split_ifs <;> exact ⟨h1, h2⟩
  | retake =>
      simp only [step]; split_ifs with hg
      · have hres : w.app.analysisResult = none := h2 (by rw [hg.1]; decide)
        exact ⟨fun _ => hres, fun _ => hres⟩
      · exact ⟨h1, h2⟩
  | usePhotoStart =>
      rcases hmi : w.app.imageSrc with _ | img
      · rw [step_usePhotoStart_none w hmi]; exact ⟨h1, h2⟩
      · by_cases hv : w.app.view = View.preview
        · rw [step_usePhotoStart_some w img hmi hv]
          have hres : w.app.analysisResult = none := h2 (by rw [hv]; decide)
          exact ⟨fun _ => hres, fun _ => hres⟩
        · rw [step_usePhotoStart_notPreview w hv]; exact ⟨h1, h2⟩
  | analysisSuccess result =>
      have hv : w.app.view = View.analysis := of_decide_eq_true hr
      simp only [step]; split_ifs
      · exact ⟨fun hfa => absurd hfa Bool.false_ne_true, fun hne => absurd hv hne⟩
      · exact ⟨h1, h2⟩
  | analysisFailure msg =>
      have hv : w.app.view = View.analysis := of_decide_eq_true hr
      simp only [step]; split_ifs
      · exact ⟨fun hfa => absurd hfa Bool.false_ne_true, fun hne => absurd hv hne⟩
      · exact ⟨h1, h2⟩
  | backToHome =>
      simp only [step]; split_ifs
      · exact ⟨fun _ => rfl, fun _ => rfl⟩
      · exact ⟨h1, h2⟩
  | headerBackEvent =>
      simp only [step, headerBack]; split_ifs with hg hv
      · have hres : w.app.analysisResult = none := h2 (by rw [hv]; decide)
        exact ⟨fun _ => hres, fun _ => hres⟩
      · exact ⟨fun _ => rfl, fun _ => rfl⟩
      · exact ⟨h1, h2⟩

lemma analyzingNoResult_run :
    ∀ (es : List Event) (w : World), analyzingNoResult w →
      promptTrace w es = true → analyzingNoResult (run w es) := by
  intro es
  induction es with
  | nil => exact fun w h _ => h
  | cons e es ih =>
      intro w h hp
      rw [promptTrace, Bool.and_eq_true] at hp
      exact ih (step w e) (analyzingNoResult_step w e h hp.1) hp.2

/-- C6 as amended: in every state reachable from the initial state by a
sequence of controller events in which every analysis resolution is
delivered while the analysis view is still current (no stale resolution
arriving after Done), the in-progress flag being true implies the analysis
result is absent. -/
theorem C6_in_progress_no_result (es : List Event)
    (hp : promptTrace initialWorld es = true)
    (ha : (run initialWorld es).app.isAnalyzing = true) :
    (run initialWorld es).app.analysisResult = none :=
  (analyzingNoResult_run es initialWorld ⟨fun _ => rfl, fun _ => rfl⟩ hp).1 ha

/-- Witness for C6 on the trace that opens the camera, captures and starts
an analysis. -/
theorem C6_in_progress_no_result_witness :
    (run initialWorld
        [Event.openCamera, Event.capture "img1", Event.usePhotoStart]).app.analysisResult
      = none :=
  C6_in_progress_no_result
    [Event.openCamera, Event.capture "img1", Event.usePhotoStart] (by decide) rfl
